import Mathlib

/-!
Verification of the sysmetrics-mcp health classifier, process-list limit
handling and configuration validation, shallowly embedded from
`internal/handlers/handlers.go` and the `config` package.

Go `float64` percentages are modelled as rationals (`ℚ`): the classifier
only compares finite values against literal thresholds with `>`, and that
order structure is faithfully represented by `ℚ`.
-/

namespace SysMetrics

/-- Status constants from handlers.go lines 30-32. -/
def statusHealthy : String := "healthy"

def statusCritical : String := "critical"

def statusWarning : String := "warning"

/-- The (status, warnings) pair mutated by HandleGetSystemHealth. -/
structure HealthState where
  status : String
  warnings : List String
  deriving DecidableEq

/-- One threshold block of HandleGetSystemHealth: the three blocks for CPU,
memory and disk are identical in shape, differing only in the value tested,
the two thresholds and the two message strings. -/
def checkMetric (st : HealthState) (value critThresh warnThresh : ℚ)
    (critMsg warnMsg : String) : HealthState :=
  if value > critThresh then
    { status := statusCritical, warnings := st.warnings ++ [critMsg] }
  else if value > warnThresh then
    { status := if st.status ≠ statusCritical then statusWarning else st.status,
      warnings := st.warnings ++ [warnMsg] }
  else st

/-- The health-classification section of HandleGetSystemHealth
(handlers.go lines 646-678): status starts at `healthy`, then the CPU,
memory and disk blocks run in that order. -/
def healthClassify (cpuUsage memUsedPercent diskUsedPercent : ℚ) : HealthState :=
  let st : HealthState := { status := statusHealthy, warnings := [] }
  let st := checkMetric st cpuUsage 95 80
    "CPU usage is critical (>95%)" "CPU usage is high (>80%)"
  let st := checkMetric st memUsedPercent 95 85
    "Memory usage is critical (>95%)" "Memory usage is high (>85%)"
  let st := checkMetric st diskUsedPercent 95 85
    "Disk usage is critical (>95%)" "Disk usage is high (>85%)"
  st

/-- A single metric check, abstracted so the three checks can be run in any
order (for the order-independence property). -/
structure MetricCheck where
  value : ℚ
  critThresh : ℚ
  warnThresh : ℚ
  critMsg : String
  warnMsg : String
  deriving DecidableEq

def applyCheck (st : HealthState) (m : MetricCheck) : HealthState :=
  checkMetric st m.value m.critThresh m.warnThresh m.critMsg m.warnMsg

/-- Run a list of metric checks starting from the initial healthy state. -/
def runChecks (ms : List MetricCheck) : HealthState :=
  ms.foldl applyCheck { status := statusHealthy, warnings := [] }

/-- The CPU block of HandleGetSystemHealth as a MetricCheck. -/
def cpuCheck (c : ℚ) : MetricCheck :=
  ⟨c, 95, 80, "CPU usage is critical (>95%)", "CPU usage is high (>80%)"⟩

/-- The memory block of HandleGetSystemHealth as a MetricCheck. -/
def memCheck (m : ℚ) : MetricCheck :=
  ⟨m, 95, 85, "Memory usage is critical (>95%)", "Memory usage is high (>85%)"⟩

/-- The disk block of HandleGetSystemHealth as a MetricCheck. -/
def diskCheck (d : ℚ) : MetricCheck :=
  ⟨d, 95, 85, "Disk usage is critical (>95%)", "Disk usage is high (>85%)"⟩

theorem healthClassify_eq_runChecks (c m d : ℚ) :
    healthClassify c m d = runChecks [cpuCheck c, memCheck m, diskCheck d] := rfl

/-- Severity of a single metric against its own thresholds:
2 = critical, 1 = warning, 0 = neither. -/
def msev (m : MetricCheck) : ℕ :=
  if m.value > m.critThresh then 2 else if m.value > m.warnThresh then 1 else 0

/-- Severity of a status string. -/
def sev (s : String) : ℕ :=
  if s = statusCritical then 2 else if s = statusWarning then 1 else 0

/-- Status string of a severity level. -/
def statusOfSev (n : ℕ) : String :=
  if n = 2 then statusCritical else if n = 1 then statusWarning else statusHealthy

/-- The message a single metric contributes, if any. -/
def msgOf (m : MetricCheck) : Option String :=
  if m.value > m.critThresh then some m.critMsg
  else if m.value > m.warnThresh then some m.warnMsg
  else none

/-- A status string produced by the classifier is one of the three constants. -/
def ValidStatus (s : String) : Prop :=
  s = statusHealthy ∨ s = statusWarning ∨ s = statusCritical

/-- Maximum severity over a list of metric checks. -/
def maxSev (l : List MetricCheck) : ℕ :=
  (l.map msev).foldr max 0

theorem statusOfSev_sev {s : String} (h : ValidStatus s) : statusOfSev (sev s) = s := by
  rcases h with h | h | h <;> subst h <;> decide

theorem sev_statusOfSev {n : ℕ} (h : n ≤ 2) : sev (statusOfSev n) = n := by
  interval_cases n <;> decide

theorem sev_le_two (s : String) : sev s ≤ 2 := by
  unfold sev; split_ifs <;> omega

theorem msev_le_two (m : MetricCheck) : msev m ≤ 2 := by
  unfold msev; split_ifs <;> omega

theorem statusOfSev_valid (n : ℕ) : ValidStatus (statusOfSev n) := by
  unfold statusOfSev ValidStatus; split_ifs <;> simp

theorem applyCheck_status (st : HealthState) (m : MetricCheck)
    (h : ValidStatus st.status) :
    (applyCheck st m).status = statusOfSev (max (sev st.status) (msev m)) := by
  unfold applyCheck checkMetric msev
  rcases h with h | h | h <;>
    rw [h] <;> split_ifs <;> simp_all [sev, statusOfSev, statusHealthy,
      statusWarning, statusCritical]

theorem applyCheck_valid (st : HealthState) (m : MetricCheck)
    (h : ValidStatus st.status) : ValidStatus (applyCheck st m).status := by
  rw [applyCheck_status st m h]; exact statusOfSev_valid _

theorem applyCheck_warnings (st : HealthState) (m : MetricCheck) :
    (applyCheck st m).warnings = st.warnings ++ (msgOf m).toList := by
  unfold applyCheck checkMetric msgOf
  split_ifs <;> simp

theorem foldl_applyCheck_status (l : List MetricCheck) :
    ∀ st : HealthState, ValidStatus st.status →
    (l.foldl applyCheck st).status = statusOfSev (max (sev st.status) (maxSev l)) := by
  induction l with
  | nil =>
    intro st h
    simp [maxSev, statusOfSev_sev h]
  | cons m l ih =>
    intro st h
    rw [List.foldl_cons, ih (applyCheck st m) (applyCheck_valid st m h),
      applyCheck_status st m h,
      sev_statusOfSev (max_le (sev_le_two _) (msev_le_two m))]
    simp [maxSev, max_assoc]

theorem foldl_applyCheck_warnings (l : List MetricCheck) :
    ∀ st : HealthState,
    (l.foldl applyCheck st).warnings = st.warnings ++ l.filterMap msgOf := by
  induction l with
  | nil => intro st; simp
  | cons m l ih =>
    intro st
    rw [List.foldl_cons, ih, applyCheck_warnings]
    cases h : msgOf m <;> simp [h]

theorem runChecks_status (l : List MetricCheck) :
    (runChecks l).status = statusOfSev (maxSev l) := by
  unfold runChecks
  rw [foldl_applyCheck_status l _ (Or.inl rfl)]
  simp [sev, statusHealthy, statusWarning, statusCritical]

theorem runChecks_warnings (l : List MetricCheck) :
    (runChecks l).warnings = l.filterMap msgOf := by
  unfold runChecks
  rw [foldl_applyCheck_warnings]
  simp

theorem healthClassify_status (c m d : ℚ) :
    (healthClassify c m d).status =
      statusOfSev (max (msev (cpuCheck c)) (max (msev (memCheck m)) (msev (diskCheck d)))) := by
  rw [healthClassify_eq_runChecks, runChecks_status]
  simp [maxSev]

theorem healthClassify_warnings (c m d : ℚ) :
    (healthClassify c m d).warnings =
      (msgOf (cpuCheck c)).toList ++ (msgOf (memCheck m)).toList
        ++ (msgOf (diskCheck d)).toList := by
  rw [healthClassify_eq_runChecks, runChecks_warnings]
  cases h1 : msgOf (cpuCheck c) <;> cases h2 : msgOf (memCheck m) <;>
    cases h3 : msgOf (diskCheck d) <;> simp [h1, h2, h3]

theorem maxSev_perm {l l' : List MetricCheck} (p : l.Perm l') : maxSev l = maxSev l' := by
  unfold maxSev
  letI : LeftCommutative (max : ℕ → ℕ → ℕ) := max_left_commutative
  exact (p.map msev).foldr_eq 0

theorem msev_eq_two_of {m : MetricCheck} (h : m.value > m.critThresh) : msev m = 2 := by
  unfold msev; rw [if_pos h]

theorem msev_eq_one_of {m : MetricCheck} (h1 : ¬ m.value > m.critThresh)
    (h2 : m.value > m.warnThresh) : msev m = 1 := by
  unfold msev; rw [if_neg h1, if_pos h2]

theorem msev_eq_zero_of {m : MetricCheck} (h1 : ¬ m.value > m.critThresh)
    (h2 : ¬ m.value > m.warnThresh) : msev m = 0 := by
  unfold msev; rw [if_neg h1, if_neg h2]

theorem msev_le_one_of {m : MetricCheck} (h1 : ¬ m.value > m.critThresh) : msev m ≤ 1 := by
  unfold msev; rw [if_neg h1]; split <;> omega

theorem msgOf_eq_none_of {m : MetricCheck} (h1 : ¬ m.value > m.critThresh)
    (h2 : ¬ m.value > m.warnThresh) : msgOf m = none := by
  unfold msgOf; rw [if_neg h1, if_neg h2]

@[simp] theorem cpuCheck_value (c : ℚ) : (cpuCheck c).value = c := rfl

@[simp] theorem cpuCheck_critThresh (c : ℚ) : (cpuCheck c).critThresh = 95 := rfl

@[simp] theorem cpuCheck_warnThresh (c : ℚ) : (cpuCheck c).warnThresh = 80 := rfl

@[simp] theorem memCheck_value (m : ℚ) : (memCheck m).value = m := rfl

@[simp] theorem memCheck_critThresh (m : ℚ) : (memCheck m).critThresh = 95 := rfl

@[simp] theorem memCheck_warnThresh (m : ℚ) : (memCheck m).warnThresh = 85 := rfl

@[simp] theorem diskCheck_value (d : ℚ) : (diskCheck d).value = d := rfl

@[simp] theorem diskCheck_critThresh (d : ℚ) : (diskCheck d).critThresh = 95 := rfl

@[simp] theorem diskCheck_warnThresh (d : ℚ) : (diskCheck d).warnThresh = 85 := rfl

theorem sev_applyCheck_mono (st : HealthState) (m : MetricCheck)
    (h : ValidStatus st.status) : sev st.status ≤ sev (applyCheck st m).status := by
  rw [applyCheck_status st m h,
    sev_statusOfSev (max_le (sev_le_two _) (msev_le_two _))]
  exact le_max_left _ _

/-- C1: if any of the three metrics strictly exceeds 95, HandleGetSystemHealth
reports status "critical", regardless of the other two values. -/
theorem healthClassify_critical_of_exceeds (c m d : ℚ)
    (h : c > 95 ∨ m > 95 ∨ d > 95) :
    (healthClassify c m d).status = statusCritical := by
  rw [healthClassify_status]
  have b1 := msev_le_two (cpuCheck c)
  have b2 := msev_le_two (memCheck m)
  have b3 := msev_le_two (diskCheck d)
  have hm : max (msev (cpuCheck c)) (max (msev (memCheck m)) (msev (diskCheck d))) = 2 := by
    rcases h with h | h | h
    · have h2 : msev (cpuCheck c) = 2 := msev_eq_two_of h
      omega
    · have h2 : msev (memCheck m) = 2 := msev_eq_two_of h
      omega
    · have h2 : msev (diskCheck d) = 2 := msev_eq_two_of h
      omega
  rw [hm]; rfl

/-- Witness for C1 at cpu = 96, memory = 20, disk = 30. -/
theorem healthClassify_critical_of_exceeds_witness :
    ((96 : ℚ) > 95 ∨ (20 : ℚ) > 95 ∨ (30 : ℚ) > 95) ∧
      (healthClassify 96 20 30).status = statusCritical :=
  ⟨Or.inl (by norm_num),
    healthClassify_critical_of_exceeds 96 20 30 (Or.inl (by norm_num))⟩

/-- C2: if CPU ≤ 80, memory ≤ 85 and disk ≤ 85 (each metric at or below its
warning threshold), HandleGetSystemHealth reports status "healthy" with an
empty warnings list. -/
theorem healthClassify_healthy_of_within (c m d : ℚ)
    (hc : c ≤ 80) (hm : m ≤ 85) (hd : d ≤ 85) :
    (healthClassify c m d).status = statusHealthy ∧
      (healthClassify c m d).warnings = [] := by
  have e1 : msev (cpuCheck c) = 0 :=
    msev_eq_zero_of (by simp [not_lt]; linarith) (by simp [not_lt]; linarith)
  have e2 : msev (memCheck m) = 0 :=
    msev_eq_zero_of (by simp [not_lt]; linarith) (by simp [not_lt]; linarith)
  have e3 : msev (diskCheck d) = 0 :=
    msev_eq_zero_of (by simp [not_lt]; linarith) (by simp [not_lt]; linarith)
  constructor
  · rw [healthClassify_status, e1, e2, e3]; rfl
  · rw [healthClassify_warnings,
      msgOf_eq_none_of (m := cpuCheck c) (by simp [not_lt]; linarith)
        (by simp [not_lt]; linarith),
      msgOf_eq_none_of (m := memCheck m) (by simp [not_lt]; linarith)
        (by simp [not_lt]; linarith),
      msgOf_eq_none_of (m := diskCheck d) (by simp [not_lt]; linarith)
        (by simp [not_lt]; linarith)]
    rfl

/-- Witness for C2 at cpu = 10, memory = 20, disk = 30. -/
theorem healthClassify_healthy_of_within_witness :
    (10 : ℚ) ≤ 80 ∧ (20 : ℚ) ≤ 85 ∧ (30 : ℚ) ≤ 85 ∧
      ((healthClassify 10 20 30).status = statusHealthy ∧
        (healthClassify 10 20 30).warnings = []) :=
  ⟨by norm_num, by norm_num, by norm_num,
    healthClassify_healthy_of_within 10 20 30 (by norm_num) (by norm_num) (by norm_num)⟩

/-- C3: if no metric strictly exceeds 95 but at least one strictly exceeds its
warning threshold (80 for CPU, 85 for memory, 85 for disk),
HandleGetSystemHealth reports status "warning". -/
theorem healthClassify_warning_of_mid (c m d : ℚ)
    (hc : c ≤ 95) (hm : m ≤ 95) (hd : d ≤ 95)
    (hw : c > 80 ∨ m > 85 ∨ d > 85) :
    (healthClassify c m d).status = statusWarning := by
  rw [healthClassify_status]
  have b1 : msev (cpuCheck c) ≤ 1 := msev_le_one_of (not_lt.mpr hc)
  have b2 : msev (memCheck m) ≤ 1 := msev_le_one_of (not_lt.mpr hm)
  have b3 : msev (diskCheck d) ≤ 1 := msev_le_one_of (not_lt.mpr hd)
  have hmx : max (msev (cpuCheck c)) (max (msev (memCheck m)) (msev (diskCheck d))) = 1 := by
    rcases hw with h | h | h
    · have h1 : msev (cpuCheck c) = 1 := msev_eq_one_of (not_lt.mpr hc) h
      omega
    · have h1 : msev (memCheck m) = 1 := msev_eq_one_of (not_lt.mpr hm) h
      omega
    · have h1 : msev (diskCheck d) = 1 := msev_eq_one_of (not_lt.mpr hd) h
      omega
  rw [hmx]; rfl

/-- Witness for C3 at cpu = 85, memory = 20, disk = 30. -/
theorem healthClassify_warning_of_mid_witness :
    (85 : ℚ) ≤ 95 ∧ (20 : ℚ) ≤ 95 ∧ (30 : ℚ) ≤ 95 ∧ (85 : ℚ) > 80 ∧
      (healthClassify 85 20 30).status = statusWarning :=
  ⟨by norm_num, by norm_num, by norm_num, by norm_num,
    healthClassify_warning_of_mid 85 20 30 (by norm_num) (by norm_num) (by norm_num)
      (Or.inl (by norm_num))⟩

/-- C4 as stated is false: at {cpu: 95, memory: 85, disk: 95} the classifier
does NOT return ("healthy", []) — cpu = 95 exceeds the CPU warning threshold
80 and disk = 95 exceeds the disk warning threshold 85, so the result is
("warning", [CPU-high, Disk-high]). -/
theorem healthClassify_boundary_claim_false :
    healthClassify 95 85 95 ≠ HealthState.mk statusHealthy [] := by decide

/-- C4 (amended): threshold comparisons are strict. At {cpu: 80, memory: 85,
disk: 85}, each metric exactly at its warning threshold, the classifier
returns ("healthy", []); at {cpu: 95, memory: 85, disk: 95} cpu = 95 does not
trigger the critical branch — the full result is status "warning" with the
CPU and disk warning messages (from the 80 and 85 warning thresholds), not
"critical" and not "healthy"; cpu = 95.0001 does trigger critical. -/
theorem healthClassify_strict_thresholds :
    healthClassify 80 85 85 = HealthState.mk statusHealthy [] ∧
      (healthClassify 95 85 95).status ≠ statusCritical ∧
      healthClassify 95 85 95 = HealthState.mk statusWarning
        ["CPU usage is high (>80%)", "Disk usage is high (>85%)"] ∧
      (healthClassify (950001 / 10000 : ℚ) 85 95).status = statusCritical := by
  refine ⟨by decide, by decide, by decide, ?_⟩
  rw [healthClassify_status]
  have h2 : msev (cpuCheck (950001 / 10000 : ℚ)) = 2 := msev_eq_two_of (by norm_num [cpuCheck])
  have b2 := msev_le_two (memCheck 85)
  have b3 := msev_le_two (diskCheck 95)
  have hm : max (msev (cpuCheck (950001 / 10000 : ℚ)))
      (max (msev (memCheck 85)) (msev (diskCheck 95))) = 2 := by omega
  rw [hm]; rfl

/-- C5: the final status is invariant under permutation of the evaluation
order of the three metric checks, and the warnings list is the same up to
permutation. -/
theorem runChecks_perm_invariant (c m d : ℚ) (l : List MetricCheck)
    (hperm : l.Perm [cpuCheck c, memCheck m, diskCheck d]) :
    (runChecks l).status = (healthClassify c m d).status ∧
      (runChecks l).warnings.Perm (healthClassify c m d).warnings := by
  rw [healthClassify_eq_runChecks, runChecks_status, runChecks_status,
    runChecks_warnings, runChecks_warnings, maxSev_perm hperm]
  exact ⟨rfl, hperm.filterMap msgOf⟩

/-- Witness for C5: the order disk, cpu, memory at (10, 20, 30). -/
theorem runChecks_perm_invariant_witness :
    (runChecks [diskCheck 30, cpuCheck 10, memCheck 20]).status
        = (healthClassify 10 20 30).status ∧
      (runChecks [diskCheck 30, cpuCheck 10, memCheck 20]).warnings.Perm
        (healthClassify 10 20 30).warnings :=
  runChecks_perm_invariant 10 20 30 [diskCheck 30, cpuCheck 10, memCheck 20] (by decide)

/-- C6: the final status equals the maximum severity (critical = 2 >
warning = 1 > healthy = 0) implied by any individual metric, and the running
status severity is non-decreasing across the three sequential checks (so a
"critical" status is never downgraded by a later check). -/
theorem healthClassify_max_severity_monotone (c m d : ℚ) :
    (healthClassify c m d).status =
      statusOfSev (max (msev (cpuCheck c)) (max (msev (memCheck m)) (msev (diskCheck d)))) ∧
    sev (HealthState.mk statusHealthy []).status
        ≤ sev (applyCheck (HealthState.mk statusHealthy []) (cpuCheck c)).status ∧
    sev (applyCheck (HealthState.mk statusHealthy []) (cpuCheck c)).status
        ≤ sev (applyCheck (applyCheck (HealthState.mk statusHealthy [])
            (cpuCheck c)) (memCheck m)).status ∧
    sev (applyCheck (applyCheck (HealthState.mk statusHealthy [])
          (cpuCheck c)) (memCheck m)).status
        ≤ sev (applyCheck (applyCheck (applyCheck (HealthState.mk statusHealthy [])
            (cpuCheck c)) (memCheck m)) (diskCheck d)).status ∧
    healthClassify c m d
      = applyCheck (applyCheck (applyCheck (HealthState.mk statusHealthy [])
          (cpuCheck c)) (memCheck m)) (diskCheck d) := by
  have v0 : ValidStatus (HealthState.mk statusHealthy []).status := Or.inl rfl
  have v1 := applyCheck_valid (HealthState.mk statusHealthy []) (cpuCheck c) v0
  have v2 := applyCheck_valid _ (memCheck m) v1
  exact ⟨healthClassify_status c m d,
    sev_applyCheck_mono _ _ v0,
    sev_applyCheck_mono _ _ v1,
    sev_applyCheck_mono _ _ v2,
    rfl⟩

/-- C7: warnings appear in fixed insertion order CPU, memory, disk, each with
its exact message string; at {cpu: 85, memory: 96, disk: 30} the result is
("critical", [CPU-high, Memory-critical]). -/
theorem healthClassify_warnings_order (c m d : ℚ) :
    (healthClassify c m d).warnings =
      (msgOf (cpuCheck c)).toList ++ (msgOf (memCheck m)).toList
        ++ (msgOf (diskCheck d)).toList ∧
    healthClassify 85 96 30 = HealthState.mk statusCritical
      ["CPU usage is high (>80%)", "Memory usage is critical (>95%)"] :=
  ⟨healthClassify_warnings c m d, by decide⟩

/-- C8: the classifier is total and pure: for every rational triple (the
order-faithful model of finite floats), including out-of-range and negative
values, it returns one of the three status verdicts, depending only on the
three inputs. -/
theorem healthClassify_total (c m d : ℚ) :
    ValidStatus (healthClassify c m d).status := by
  rw [healthClassify_status]; exact statusOfSev_valid _

/-! ## Configuration validation (config package) -/

/-- Temperature unit constants from the config package. -/
def UnitCelsius : String := "celsius"

def UnitFahrenheit : String := "fahrenheit"

def UnitKelvin : String := "kelvin"

/-- The Config struct from the config package. Go `int` is modelled as `Int`. -/
structure Config where
  tempUnit : String
  maxProcesses : Int
  mountPoints : List String
  interfaces : List String
  enableGPU : Bool
  mountPointsStr : String
  interfacesStr : String
  deriving DecidableEq

/-- Go's strings.ToLower, modelled as a per-character map (the configured
units are ASCII, where Go's Unicode case mapping agrees with Char.toLower). -/
def goToLower (s : String) : String :=
  String.mk (s.data.map Char.toLower)

/-- SplitAndTrim from the config package: split on commas, trim whitespace,
drop empty parts. -/
def splitAndTrim (s : String) : List String :=
  (((s.splitOn ",").map (fun part => part.trim)).filter (fun trimmed => trimmed ≠ ""))

/-- Config.Validate from the config package: lower-case and check the
temperature unit, silently clamp MaxProcesses (values below 1 raised to 10,
values above 50 lowered to 50), then parse the mount-point and interface
lists. -/
def Config.validate (c : Config) : Except String Config :=
  let c := { c with tempUnit := goToLower c.tempUnit }
  if c.tempUnit ≠ UnitCelsius ∧ c.tempUnit ≠ UnitFahrenheit ∧ c.tempUnit ≠ UnitKelvin then
    Except.error ("invalid temp-unit: " ++ c.tempUnit
      ++ " (must be celsius, fahrenheit, or kelvin)")
  else
    let c := if c.maxProcesses < 1 then { c with maxProcesses := 10 } else c
    let c := if c.maxProcesses > 50 then { c with maxProcesses := 50 } else c
    let c := if c.mountPointsStr ≠ "" then
      { c with mountPoints := splitAndTrim c.mountPointsStr } else c
    let c := if c.interfacesStr ≠ "" then
      { c with interfaces := splitAndTrim c.interfacesStr } else c
    Except.ok c

/-- C9: with a valid temperature unit, Config.Validate returns no error and
silently clamps MaxProcesses: values below 1 (below the valid range [1, 50])
are raised to 10, values above 50 are lowered to 50, and in-range values are
left unchanged. -/
theorem validate_clamps_maxProcesses (c : Config)
    (h : goToLower c.tempUnit = UnitCelsius ∨ goToLower c.tempUnit = UnitFahrenheit ∨
      goToLower c.tempUnit = UnitKelvin) :
    ∃ c' : Config, c.validate = Except.ok c' ∧
      ((c.maxProcesses < 1 → c'.maxProcesses = 10) ∧
       (c.maxProcesses > 50 → c'.maxProcesses = 50) ∧
       (1 ≤ c.maxProcesses → c.maxProcesses ≤ 50 → c'.maxProcesses = c.maxProcesses)) := by
  have hcond : ¬(({c with tempUnit := goToLower c.tempUnit} : Config).tempUnit ≠ UnitCelsius ∧
      ({c with tempUnit := goToLower c.tempUnit} : Config).tempUnit ≠ UnitFahrenheit ∧
      ({c with tempUnit := goToLower c.tempUnit} : Config).tempUnit ≠ UnitKelvin) := by
    simp only [ne_eq, not_and_or, not_not]
    rcases h with h | h | h <;> simp [h]
  unfold Config.validate
  rw [if_neg hcond]
  refine ⟨_, rfl, ?_, ?_, ?_⟩ <;>
    · intros
      simp only [apply_ite Config.maxProcesses]
      split_ifs <;> simp_all <;> omega

/-- Witness for C9: unit "Celsius", MaxProcesses 0 (clamped up to 10). -/
theorem validate_clamps_maxProcesses_witness :
    ∃ c' : Config, (Config.mk "Celsius" 0 [] [] false "" "").validate = Except.ok c' ∧
      (((Config.mk "Celsius" 0 [] [] false "" "").maxProcesses < 1 → c'.maxProcesses = 10) ∧
       ((Config.mk "Celsius" 0 [] [] false "" "").maxProcesses > 50 → c'.maxProcesses = 50) ∧
       (1 ≤ (Config.mk "Celsius" 0 [] [] false "" "").maxProcesses →
        (Config.mk "Celsius" 0 [] [] false "" "").maxProcesses ≤ 50 →
        c'.maxProcesses = (Config.mk "Celsius" 0 [] [] false "" "").maxProcesses)) :=
  validate_clamps_maxProcesses (Config.mk "Celsius" 0 [] [] false "" "") (Or.inl (by decide))

/-! ## Process-list limit handling (HandleGetProcessList) -/

/-- Go's int(float64) conversion on a 64-bit platform: truncation toward
zero when the truncated value fits in int64. When it does not, the Go
specification leaves the result implementation-dependent; the gc compiler on
amd64 (CVTTSD2SI) produces minInt64 = -2^63, which is the behavior modelled
here. -/
def goIntOfFloat64 (l : ℚ) : Int :=
  let t := if 0 ≤ l then ⌊l⌋ else ⌈l⌉
  if t < -(2 ^ 63) ∨ t > 2 ^ 63 - 1 then -(2 ^ 63) else t

/-- The limit computation at the top of HandleGetProcessList: start from the
configured MaxProcesses; if a numeric "limit" argument greater than 0 is
present, convert it with Go's int(float64) and cap the result at 50. No lower
bound is applied. -/
def effectiveLimit (cfgMax : Int) (arg : Option ℚ) : Int :=
  match arg with
  | some l =>
    if l > 0 then
      let lim := goIntOfFloat64 l
      if lim > 50 then 50 else lim
    else cfgMax
  | none => cfgMax

/-- The truncation at the end of HandleGetProcessList:
`if len(procList) > limit { procList = procList[:limit] }`; the "shown" field
is the length of the truncated list. A negative limit makes the executed
slice expression procList[:limit] panic with a slice-bounds error, modelled
as `none`. -/
def shownCount (limit : Int) (total : ℕ) : Option ℕ :=
  if (total : ℤ) > limit then
    if limit < 0 then none else some limit.toNat
  else some total

theorem goIntOfFloat64_of_lt {l : ℚ} (h0 : 0 < l) (h1 : l < 2 ^ 63) :
    goIntOfFloat64 l = ⌊l⌋ := by
  unfold goIntOfFloat64
  have hf0 : (0 : ℤ) ≤ ⌊l⌋ := Int.floor_nonneg.mpr (le_of_lt h0)
  have hf1 : ⌊l⌋ < 2 ^ 63 := by
    rw [Int.floor_lt]
    push_cast
    exact h1
  rw [if_pos (le_of_lt h0), if_neg]
  omega

theorem goIntOfFloat64_of_ge {l : ℚ} (h1 : l ≥ 2 ^ 63) :
    goIntOfFloat64 l = -(2 ^ 63) := by
  unfold goIntOfFloat64
  have h0 : (0 : ℚ) ≤ l := le_trans (by positivity) h1
  have hf1 : (2 ^ 63 : ℤ) ≤ ⌊l⌋ := by
    rw [Int.le_floor]
    push_cast
    exact h1
  rw [if_pos h0, if_pos]
  omega

/-- C10 as stated is false: the per-request limit is not merely "capped from
above". At the limit argument 2^63, a legal JSON number, Go's int(float64)
conversion (gc, amd64) yields minInt64, which the `> 50` cap leaves
unchanged, so the limit is negative and the slice truncation panics instead
of showing min(50, total) processes. -/
theorem processList_limit_overflow :
    effectiveLimit 10 (some ((2 : ℚ) ^ 63)) = -(2 ^ 63) ∧
      shownCount (effectiveLimit 10 (some ((2 : ℚ) ^ 63))) 5 = none := by
  have he : effectiveLimit 10 (some ((2 : ℚ) ^ 63)) = -(2 ^ 63) := by
    have hb := goIntOfFloat64_of_ge (l := (2 : ℚ) ^ 63) (le_refl _)
    simp [effectiveLimit, hb]
  refine ⟨he, ?_⟩
  rw [he]
  unfold shownCount
  norm_num

/-- C10 (amended): for a numeric "limit" argument in (0, 2^63) the original
claim holds — the value is truncated to an integer and capped at 50 from
above only, the number of processes shown is min(limit, total), and a
fractional limit strictly between 0 and 1 truncates to 0 and shows zero
processes. For arguments ≥ 2^63 the int(float64) conversion (gc, amd64)
yields minInt64: the limit stays negative and the slice truncation panics. -/
theorem processList_limit_cap (cfgMax : Int) (l : ℚ) (total : ℕ) (h : l > 0) :
    ((l < 2 ^ 63) →
      effectiveLimit cfgMax (some l) = (if ⌊l⌋ > 50 then 50 else ⌊l⌋) ∧
      shownCount (effectiveLimit cfgMax (some l)) total
        = some (min (effectiveLimit cfgMax (some l)).toNat total) ∧
      (l < 1 → shownCount (effectiveLimit cfgMax (some l)) total = some 0)) ∧
    (l ≥ 2 ^ 63 →
      effectiveLimit cfgMax (some l) = -(2 ^ 63) ∧
      shownCount (effectiveLimit cfgMax (some l)) total = none) := by
  constructor
  · intro hlt
    have hfl : (0 : ℤ) ≤ ⌊l⌋ := Int.floor_nonneg.mpr (le_of_lt h)
    have he : effectiveLimit cfgMax (some l) = (if ⌊l⌋ > 50 then 50 else ⌊l⌋) := by
      simp [effectiveLimit, h, goIntOfFloat64_of_lt h hlt]
    refine ⟨he, ?_, ?_⟩
    · rw [he]; unfold shownCount; split_ifs <;> simp_all <;> omega
    · intro h1
      have hz : ⌊l⌋ = 0 := Int.floor_eq_zero_iff.mpr ⟨le_of_lt h, h1⟩
      rw [he, hz]
      unfold shownCount
      split_ifs <;> simp_all
  · intro hge
    have he : effectiveLimit cfgMax (some l) = -(2 ^ 63) := by
      have hb := goIntOfFloat64_of_ge hge
      simp [effectiveLimit, h, hb]
    refine ⟨he, ?_⟩
    rw [he]
    unfold shownCount
    rw [if_pos (by omega), if_pos (by omega)]

/-- Witness for C10: configured max 10, limit argument 0.5, five processes:
zero are shown. -/
theorem processList_limit_cap_witness :
    ((1 : ℚ)/2 > 0) ∧ shownCount (effectiveLimit 10 (some ((1 : ℚ)/2))) 5 = some 0 :=
  ⟨by norm_num,
    ((processList_limit_cap 10 ((1 : ℚ)/2) 5 (by norm_num)).1 (by norm_num)).2.2 (by norm_num)⟩

end SysMetrics
